import Mathlib

/-!
Verification of the statement-to-transaction extraction and categorization
pipeline of the budgeting backend.

The TypeScript services are shallowly embedded:
  * pure string / numeric manipulation is translated to executable Lean
    functions (JS numbers appear as `ℚ`, with `Option ℚ` standing for a
    number-or-NaN where NaN can flow);
  * effectful inputs (the remote classifier's responses, the category store,
    the system clock, the date normaliser built on `new Date`, and the
    regex engine used by the PDF strategies) are passed in as explicit
    parameters, so every theorem quantifies over all of their behaviours;
  * code that can throw is translated to `Option`/`Except` results.
-/

namespace BudgetApp

/-- ASCII lower-casing of one character, as JavaScript `toLowerCase` acts on
the ASCII merchant text these descriptions contain. -/
def jsCharToLower (c : Char) : Char :=
  if 65 ≤ c.toNat ∧ c.toNat ≤ 90 then Char.ofNat (c.toNat + 32) else c

/-- Embedding of JavaScript `String.prototype.toLowerCase`. -/
def jsToLower (s : String) : String :=
  String.mk (s.data.map jsCharToLower)

/-- Embedding of JavaScript `String.prototype.trim`. -/
def jsTrim (s : String) : String :=
  String.mk (((s.data.dropWhile Char.isWhitespace).reverse.dropWhile Char.isWhitespace).reverse)

/-- Embedding of JavaScript `str.split(sep)` for a one-character separator. -/
def jsSplitChar (sep : Char) (s : String) : List String :=
  go [] s.data
where
  go (cur : List Char) : List Char → List String
    | [] => [String.mk cur.reverse]
    | c :: rest =>
      if c = sep then String.mk cur.reverse :: go [] rest
      else go (c :: cur) rest

/-- Embedding of JavaScript `String.prototype.startsWith`. -/
def startsWithStr (s pre : String) : Bool :=
  pre.data.isPrefixOf s.data

/-- Number of characters of a string (JS `.length` counts UTF-16 units, which
agrees on the basic-plane text these statements contain). -/
def strLen (s : String) : Nat :=
  s.data.length

/-- Embedding of JavaScript `str.substring(0, n)`. -/
def takeChars (s : String) (n : Nat) : String :=
  String.mk (s.data.take n)

/-- Boolean test that `sub` occurs as a contiguous sublist of `l`. -/
def infixMatch (sub : List Char) : List Char → Bool
  | [] => sub.isPrefixOf []
  | c :: rest => sub.isPrefixOf (c :: rest) || infixMatch sub rest

/-- Substring test, the embedding of JavaScript `String.prototype.includes`. -/
def includesStr (s sub : String) : Bool :=
  infixMatch sub.data s.data

/-- Embedding of the decimal fragment of JavaScript `parseFloat`: skip leading
whitespace, read an optional sign, then digits with an optional fractional
part, ignoring any trailing garbage; `none` models `NaN` (no digit was read).
(The exponent and `Infinity` forms of `parseFloat`, which cannot occur in the
bank-statement amount strings this code feeds it, are not modelled.) -/
def parseFloatQ (s : String) : Option ℚ :=
  let cs := s.data.dropWhile (fun c => c.isWhitespace)
  let sign : ℚ := if cs.head? = some '-' then -1 else 1
  let cs := match cs with
    | '-' :: r => r
    | '+' :: r => r
    | r => r
  let intPart := cs.takeWhile Char.isDigit
  let rest := cs.dropWhile Char.isDigit
  let fracPart := match rest with
    | '.' :: r => r.takeWhile Char.isDigit
    | _ => []
  if intPart = [] ∧ fracPart = [] then none
  else
    let iv : ℕ := intPart.foldl (fun n c => 10 * n + (c.toNat - 48)) 0
    let fv : ℕ := fracPart.foldl (fun n c => 10 * n + (c.toNat - 48)) 0
    some (sign * ((iv : ℚ) + (fv : ℚ) / (10 ^ fracPart.length)))

/-- Embedding of `str.replace(/[$,]/g, '')`. -/
def stripDollarComma (s : String) : String :=
  String.mk (s.data.filter (fun c => c ≠ '$' ∧ c ≠ ','))

/-- Embedding of `str.replace(/,/g, '')`. -/
def stripCommas (s : String) : String :=
  String.mk (s.data.filter (fun c => c ≠ ','))

/-- The transient record produced by the file processor
(`ExtractedTransaction` in `fileProcessorService.ts`). -/
structure ExtractedTransaction where
  date : String
  description : String
  amount : ℚ
  isIncome : Bool
deriving Repr, DecidableEq

/-- The categorizer's output record (`CategorizedTransaction` in
`aiCategorizationService.ts`); `subcategory` is an optional field. -/
structure CategorizedTransaction where
  description : String
  category : String
  subcategory : Option String
  confidence : ℚ
deriving Repr, DecidableEq

/-- The fixed category vocabulary named by the specification. -/
def knownVocabulary : List String :=
  ["Housing", "Transportation", "Food & Dining", "Utilities", "Entertainment",
   "Shopping", "Healthcare", "Personal Care", "Education", "Travel",
   "Subscriptions", "Income", "Other"]

/-- Disjunction of `includes` tests over a keyword list, in list order; this is
the embedding of the `lowerDesc.includes(k1) || lowerDesc.includes(k2) || ...`
chains of `fallbackCategorization`. -/
def matchesAny (d : String) (ks : List String) : Bool :=
  ks.any (fun k => includesStr d k)

def housingKeywords : List String :=
  ["rent", "mortgage", "hoa", "property", "landlord", "lease", "apartment", "housing"]

def transportationKeywords : List String :=
  ["uber", "lyft", "gas", "parking", "car", "auto", "fuel", "shell", "chevron",
   "exxon", "bp ", "transit", "metro", "subway", "bus"]

def foodKeywords : List String :=
  ["restaurant", "cafe", "coffee", "food", "doordash", "grubhub", "ubereats",
   "postmates", "instacart", "grocery", "market", "starbucks", "mcdonald",
   "burger", "pizza", "chipotle", "subway", "wendy", "taco", "dunkin", "kroger",
   "safeway", "whole foods", "trader joe", "aldi", "costco", "publix"]

def utilitiesKeywords : List String :=
  ["electric", "water", "internet", "phone", "utility", "cable", "comcast",
   "xfinity", "verizon", "at&t", "att", "t-mobile", "sprint", "pge", "edison",
   "gas bill", "sewage", "trash"]

def entertainmentKeywords : List String :=
  ["netflix", "spotify", "movie", "theater", "game", "music", "hulu", "disney",
   "hbo", "amazon prime", "apple tv", "youtube", "twitch", "steam",
   "playstation", "xbox", "nintendo", "concert", "ticket", "cinema", "amc"]

def shoppingKeywords : List String :=
  ["amazon", "target", "walmart", "store", "shop", "best buy", "home depot",
   "lowes", "ikea", "ebay", "etsy", "nordstrom", "macy", "kohls", "jcpenney",
   "old navy", "gap", "nike", "adidas", "amzn", "purchase"]

def healthcareKeywords : List String :=
  ["pharmacy", "doctor", "medical", "health", "hospital", "cvs", "walgreens",
   "rite aid", "dental", "vision", "optical", "clinic", "urgent care",
   "insurance", "gym", "fitness", "planet fitness", "equinox"]

def personalCareKeywords : List String :=
  ["salon", "barber", "spa", "nail", "beauty", "haircut"]

def educationKeywords : List String :=
  ["tuition", "school", "university", "college", "course", "udemy", "coursera", "book"]

def travelKeywords : List String :=
  ["airline", "hotel", "airbnb", "flight", "travel", "expedia", "booking",
   "delta", "united", "american air", "southwest", "marriott", "hilton", "hyatt"]

def subscriptionsKeywords : List String :=
  ["subscription", "membership", "monthly", "annual", "recurring"]

/-- Embedding of `AICategorizationService.fallbackCategorization` (the retry-enabled
production version of the service): lowercase the description, return `Income`
for income rows, otherwise walk the keyword groups in source order and return
the first match, defaulting to `Other`. -/
def fallbackCategorization (description : String) (isIncome : Bool) : CategorizedTransaction :=
  let lowerDesc := jsToLower description
  if isIncome then
    ⟨description, "Income", none, 4/5⟩
  else if matchesAny lowerDesc housingKeywords then
    ⟨description, "Housing", none, 9/10⟩
  else if matchesAny lowerDesc transportationKeywords then
    ⟨description, "Transportation", none, 17/20⟩
  else if matchesAny lowerDesc foodKeywords then
    ⟨description, "Food & Dining", none, 17/20⟩
  else if matchesAny lowerDesc utilitiesKeywords then
    ⟨description, "Utilities", none, 9/10⟩
  else if matchesAny lowerDesc entertainmentKeywords then
    ⟨description, "Entertainment", none, 17/20⟩
  else if matchesAny lowerDesc shoppingKeywords then
    ⟨description, "Shopping", none, 3/4⟩
  else if matchesAny lowerDesc healthcareKeywords then
    ⟨description, "Healthcare", none, 9/10⟩
  else if matchesAny lowerDesc personalCareKeywords then
    ⟨description, "Personal Care", none, 17/20⟩
  else if matchesAny lowerDesc educationKeywords then
    ⟨description, "Education", none, 17/20⟩
  else if matchesAny lowerDesc travelKeywords then
    ⟨description, "Travel", none, 9/10⟩
  else if matchesAny lowerDesc subscriptionsKeywords then
    ⟨description, "Subscriptions", none, 7/10⟩
  else
    ⟨description, "Other", none, 1/2⟩

/-- The keyword groups of `fallbackCategorization` as an ordered table
`(keywords, category, confidence)`, in the order the source tests them. -/
def fallbackGroups : List (List String × String × ℚ) :=
  [(housingKeywords, "Housing", 9/10),
   (transportationKeywords, "Transportation", 17/20),
   (foodKeywords, "Food & Dining", 17/20),
   (utilitiesKeywords, "Utilities", 9/10),
   (entertainmentKeywords, "Entertainment", 17/20),
   (shoppingKeywords, "Shopping", 3/4),
   (healthcareKeywords, "Healthcare", 9/10),
   (personalCareKeywords, "Personal Care", 17/20),
   (educationKeywords, "Education", 17/20),
   (travelKeywords, "Travel", 9/10),
   (subscriptionsKeywords, "Subscriptions", 7/10)]

/-- First-match lookup over an ordered group table; `("Other", 1/2)` when no
group matches.  Used to state what order `fallbackCategorization` tests its
groups in. -/
def firstMatchCat (d : String) : List (List String × String × ℚ) → String × ℚ
  | [] => ("Other", 1/2)
  | (ks, c, conf) :: rest => if matchesAny d ks then (c, conf) else firstMatchCat d rest

/-- A JavaScript exception as the retry wrapper observes it: either an object
carrying a numeric `status` field (API errors) or anything else. -/
inductive JsErr where
  | status : Nat → JsErr
  | other : String → JsErr
deriving Repr, DecidableEq

/-- The `error?.status === 401 || error?.status === 403` test of `withRetry`. -/
def isAuthErr : JsErr → Bool
  | .status 401 => true
  | .status 403 => true
  | _ => false

/-- Loop of `withRetry` once some error has been recorded in `lastError` (so
exhausting the attempts rethrows that error).  The fuel argument equals
`maxRetries - attempt`, so the `attempt < maxRetries` loop condition is the
fuel being positive.  The value is `(outcome, calls made, delays slept in ms)`. -/
def withRetryGoLast {α : Type} (fn : Nat → Except JsErr α) (maxRetries initialDelay : Nat) :
    Nat → Nat → JsErr → Except (Option JsErr) α × Nat × List Nat
  | 0, _, last => (.error (some last), 0, [])
  | fuel + 1, attempt, _ =>
    match fn attempt with
    | .ok v => (.ok v, 1, [])
    | .error e =>
      if isAuthErr e then
        (.error (some e), 1, [])
      else
        let rest := withRetryGoLast fn maxRetries initialDelay fuel (attempt + 1) e
        (rest.1, rest.2.1 + 1,
          if attempt < maxRetries - 1 then initialDelay * 2 ^ attempt :: rest.2.2 else rest.2.2)

/-- First iteration of the `withRetry` loop, embedded with the per-attempt
outcome supplied as a function `fn` of the attempt index.  A thrown error is
`Except.error`, carrying `none` when the loop body never ran (`throw lastError`
with `lastError` still `null`). -/
def withRetryGo {α : Type} (fn : Nat → Except JsErr α) (maxRetries initialDelay : Nat) :
    Nat → Nat → Except (Option JsErr) α × Nat × List Nat
  | 0, _ => (.error none, 0, [])
  | fuel + 1, attempt =>
    match fn attempt with
    | .ok v => (.ok v, 1, [])
    | .error e =>
      if isAuthErr e then
        (.error (some e), 1, [])
      else
        let rest := withRetryGoLast fn maxRetries initialDelay fuel (attempt + 1) e
        (rest.1, rest.2.1 + 1,
          if attempt < maxRetries - 1 then initialDelay * 2 ^ attempt :: rest.2.2 else rest.2.2)

/-- Embedding of the `withRetry` helper of `aiCategorizationService.ts` (the
service always calls it with its defaults `maxRetries = 3`,
`initialDelay = 1000`). -/
def withRetry {α : Type} (fn : Nat → Except JsErr α) (maxRetries initialDelay : Nat) :
    Except (Option JsErr) α × Nat × List Nat :=
  withRetryGo fn maxRetries initialDelay maxRetries 0

/-- The backtick character. -/
def tick : Char := '\x60'

/-- The three-backtick code-fence marker. -/
def tick3 : List Char := [tick, tick, tick]

/-- The literal text matched by the first code-fence replace:
three backticks followed by `jso`, with `n` and a newline optional. -/
def fenceJsonPre : List Char := tick3 ++ ['j', 's', 'o']

/-- One global pass of `replace(/\x60\x60\x60json?\n?/g, '')` over a character
list (fuel-driven scan; the fuel is the list length, which bounds the number
of steps). -/
def dropFenceJsonGo : Nat → List Char → List Char
  | 0, l => l
  | fuel + 1, l =>
    if fenceJsonPre.isPrefixOf l then
      let r := l.drop 6
      let r := match r with
        | 'n' :: t => t
        | t => t
      let r := match r with
        | '\n' :: t => t
        | t => t
      dropFenceJsonGo fuel r
    else
      match l with
      | [] => []
      | c :: rest => c :: dropFenceJsonGo fuel rest

/-- One global pass of `replace(/\x60\x60\x60/g, '')` over a character list. -/
def dropTicks3Go : Nat → List Char → List Char
  | 0, l => l
  | fuel + 1, l =>
    if tick3.isPrefixOf l then dropTicks3Go fuel (l.drop 3)
    else
      match l with
      | [] => []
      | c :: rest => c :: dropTicks3Go fuel rest

/-- Embedding of the markdown code-fence stripping applied to the remote
classifier's response before `JSON.parse`:
`.replace(/\x60\x60\x60json?\n?/g, '').replace(/\x60\x60\x60/g, '').trim()`. -/
def stripFences (s : String) : String :=
  let l1 := dropFenceJsonGo s.data.length s.data
  jsTrim (String.mk (dropTicks3Go l1.length l1))

/-- The fields the service reads off the object produced by `JSON.parse`;
`none` models a missing or `null` field.  (JSON itself has no `NaN`, so a
present `confidence` is a plain number.) -/
structure JsonClassification where
  category : Option String
  subcategory : Option String
  confidence : Option ℚ
deriving Repr, DecidableEq

/-- One attempt of the remote-classification closure passed to `withRetry`:
`resp` is the outcome of the network call (`Except.error` = the call threw;
`ok none` = response without content; `ok (some text)` = the message content),
and `jsonParse` is the behaviour of `JSON.parse` on the processed text
(`none` = `JSON.parse` threw).  Mirrors the body at
`aiCategorizationService.ts` lines 284-313. -/
def attemptOnce (jsonParse : String → Option JsonClassification)
    (resp : Except JsErr (Option String)) : Except JsErr JsonClassification :=
  match resp with
  | .error e => .error e
  | .ok none => .error (.other "No response from AI")
  | .ok (some content) =>
    let responseText := jsTrim content
    if responseText = "" then .error (.other "No response from AI")
    else
      let jsonStr :=
        if startsWithStr responseText (String.mk tick3) then stripFences responseText
        else responseText
      match jsonParse jsonStr with
      | some r => .ok r
      | none => .error (.other "SyntaxError: JSON.parse")

/-- The attempt function the service hands to `withRetry`, one network
response per attempt index. -/
def attemptFn (jsonParse : String → Option JsonClassification)
    (responses : Nat → Except JsErr (Option String)) : Nat → Except JsErr JsonClassification :=
  fun i => attemptOnce jsonParse (responses i)

/-- Embedding of the result coercion the service applies to a successfully
parsed classification: `result.category || 'Other'` and
`result.confidence || 0.5` (JavaScript `||` replaces the falsy values — a
missing/empty category, a missing/`null`/`0` confidence — by the default). -/
def coerceResult (description : String) (r : JsonClassification) : CategorizedTransaction :=
  { description := description
    category := match r.category with
      | none => "Other"
      | some s => if s = "" then "Other" else s
    subcategory := r.subcategory
    confidence := match r.confidence with
      | none => 1/2
      | some c => if c = 0 then 1/2 else c }

/-- Embedding of `AICategorizationService.categorizeTransaction`:
`configured` is whether the OpenAI client was initialised; the remote
behaviour is the pair `(jsonParse, responses)`.  The categories fetched for
the prompt do not influence the returned value and are omitted.  All failure
paths are the `catch` branch, which falls back to rule-based categorization —
the function is total, mirroring that the source never rethrows. -/
def categorizeTransaction (configured : Bool)
    (jsonParse : String → Option JsonClassification)
    (responses : Nat → Except JsErr (Option String))
    (description : String) (_amount : ℚ) (isIncome : Bool) : CategorizedTransaction :=
  if ¬configured then fallbackCategorization description isIncome
  else
    match (withRetry (attemptFn jsonParse responses) 3 1000).1 with
    | .ok result => coerceResult description result
    | .error _ => fallbackCategorization description isIncome

/-- The in-process category cache of the service (`categoriesCache` and
`categoriesCacheTime`); times are epoch milliseconds. -/
structure CatCache where
  cache : Option (List String)
  time : Int
deriving Repr, DecidableEq

/-- The hardcoded category list returned when the category store fails. -/
def defaultCategories : List String :=
  ["Housing", "Transportation", "Food & Dining", "Utilities", "Entertainment",
   "Shopping", "Healthcare", "Income", "Other"]

/-- The fetch path of `getCategories` (the `try`/`catch` block). -/
def getCategoriesFetch (st : CatCache) (now : Int) (db : Except Unit (List String)) :
    List String × CatCache :=
  match db with
  | .ok rows => (rows, { cache := some rows, time := now })
  | .error _ => (defaultCategories, st)

/-- Embedding of `AICategorizationService.getCategories`: return the cached
list when it exists and is fresh (TTL 60000 ms); otherwise query the store
(`db`), caching a successful result; a store failure yields the hardcoded
default list and leaves the cache untouched. -/
def getCategories (st : CatCache) (now : Int) (db : Except Unit (List String)) :
    List String × CatCache :=
  match st.cache with
  | some c =>
    if now - st.time < 60000 then (c, st)
    else getCategoriesFetch st now db
  | none => getCategoriesFetch st now db

/-- The synonym keys probed for the date column of a tabular row. -/
def dateKeys : List String :=
  ["Date", "date", "Transaction Date", "Posting Date", "posting_date"]

/-- The synonym keys probed for the description column of a tabular row. -/
def descKeys : List String :=
  ["Description", "description", "Merchant", "merchant", "Details", "details"]

/-- The synonym keys probed for the amount column of a tabular row. -/
def amountKeys : List String :=
  ["Amount", "amount", "Debit", "debit", "Credit", "credit"]

/-- A parsed CSV row as `csv-parser` delivers it: a header-to-string mapping
(an absent key is JavaScript `undefined`). -/
def CsvRow := List (String × String)

/-- Embedding of `FileProcessorService.findValue`: probe the keys in order and
return the first present, non-empty value (`undefined`, `null` and `''` are
all skipped). -/
def findValue (row : CsvRow) : List String → Option String
  | [] => none
  | k :: ks =>
    match List.lookup k row with
    | some v => if v ≠ "" then some v else findValue row ks
    | none => findValue row ks

/-- Embedding of `FileProcessorService.parseCSVRow`.  `nd` is the impure
`normalizeDate` (built on `new Date` and the current date), passed in as a
parameter.  `null` is `none`; no code path throws. -/
def parseCSVRow (nd : String → String) (row : CsvRow) : Option ExtractedTransaction :=
  match findValue row dateKeys, findValue row descKeys, findValue row amountKeys with
  | some date, some description, some amountStr =>
    match parseFloatQ (stripDollarComma amountStr) with
    | none => none
    | some amount =>
      some { date := nd date
             description := jsTrim description
             amount := |amount|
             isIncome := decide (0 < amount) }
  | _, _, _ => none

/-- Embedding of JavaScript `line.split(/\s+/)`: pieces separated by maximal
whitespace runs, with empty pieces at the ends when the string starts or ends
with whitespace. -/
def jsSplitWs (s : String) : List String :=
  go false [] s.data
where
  go (inWs : Bool) (cur : List Char) : List Char → List String
    | [] => [String.mk cur.reverse]
    | c :: rest =>
      if c.isWhitespace then
        if inWs then go true [] rest
        else String.mk cur.reverse :: go true [] rest
      else go false (c :: cur) rest

/-- Collapse whitespace runs to single spaces (`replace(/\s+/g, ' ')`). -/
def collapseWs : Bool → List Char → List Char
  | _, [] => []
  | prevWs, c :: rest =>
    if c.isWhitespace then
      if prevWs then collapseWs true rest
      else ' ' :: collapseWs true rest
    else c :: collapseWs false rest

/-- The bullet characters stripped by `cleanDescription` (`[-*•·]`). -/
def isBulletChar (c : Char) : Bool :=
  c = '-' || c = '*' || c = '•' || c = '·'

/-- Strip one leading bullet and the whitespace after it (`^[-*•·]\s*`). -/
def stripLeadingBullet (l : List Char) : List Char :=
  match l with
  | c :: rest => if isBulletChar c then rest.dropWhile Char.isWhitespace else l
  | [] => []

/-- Strip one trailing bullet and the whitespace before it (`\s*[-*•·]$`). -/
def stripTrailingBullet (l : List Char) : List Char :=
  match l.reverse with
  | c :: rest =>
    if isBulletChar c then (rest.dropWhile Char.isWhitespace).reverse else l
  | [] => []

/-- Strip leading digits followed by whitespace (`^\d+\s+`). -/
def stripLeadingNum (l : List Char) : List Char :=
  let ds := l.takeWhile Char.isDigit
  let rest := l.dropWhile Char.isDigit
  if ds ≠ [] ∧ (rest.takeWhile Char.isWhitespace) ≠ [] then
    rest.dropWhile Char.isWhitespace
  else l

/-- Strip trailing whitespace-then-digits (`\s+\d+$`). -/
def stripTrailingNum (l : List Char) : List Char :=
  let r := l.reverse
  let ds := r.takeWhile Char.isDigit
  let rest := r.dropWhile Char.isDigit
  if ds ≠ [] ∧ (rest.takeWhile Char.isWhitespace) ≠ [] then
    (rest.dropWhile Char.isWhitespace).reverse
  else l

/-- Embedding of `FileProcessorService.cleanDescription`. -/
def cleanDescription (desc : String) : String :=
  jsTrim (String.mk
    (stripTrailingNum (stripLeadingNum (stripTrailingBullet (stripLeadingBullet
      (collapseWs false desc.data))))))

/-- The keyword list `isIncomeTransaction` scans for. -/
def incomeKeywords : List String :=
  ["deposit", "credit", "refund", "payment received", "direct dep", "payroll",
   "salary", "income", "interest earned", "dividend", "cash back",
   "reimbursement", "transfer from", "venmo from", "zelle from", "paypal from"]

/-- Embedding of `FileProcessorService.isIncomeTransaction`. -/
def isIncomeTransaction (line description : String) (isDebit : Bool) : Bool :=
  let lowerLine := jsToLower (line ++ " " ++ description)
  if incomeKeywords.any (fun k => includesStr lowerLine k) then true
  else !isDebit && includesStr lowerLine "+"

/-- The words that mark a line as a header or summary. -/
def skipPatterns : List String :=
  ["balance", "total", "subtotal", "page", "statement", "account number",
   "routing", "opening", "closing", "previous", "date", "description",
   "amount", "debit", "credit", "beginning", "ending", "summary", "period"]

/-- Embedding of `FileProcessorService.isHeaderOrSummaryLine`: a skip word
occurs (lower-cased) and the line has fewer than 5 whitespace-separated
tokens. -/
def isHeaderOrSummaryLine (line : String) : Bool :=
  let lower := jsToLower line
  skipPatterns.any (fun p => includesStr lower p && decide ((jsSplitWs line).length < 5))

/-- Result of matching the Strategy-1 regexes against one line.  The regex
engine is modelled as an oracle (`none` = no date or no amount was found on
the line or the following line); all theorems below hold for every possible
oracle behaviour. -/
structure S1Match where
  dateTok : String
  amountGrp1 : String
  amountHasParen : Bool
  rawDesc : String

/-- Result of matching the Strategy-2 `multiAmountPattern` against one line:
the date capture, the first amount capture, the optional second amount
capture, and the description substring between date and first amount. -/
structure S2Match where
  dateTok : String
  a1Str : String
  a2Str : Option String
  rawDesc : String

/-- Result of matching the Strategy-3 patterns against one line: the date
capture, the capture group of every match of the global amount regex in
order, and the date/amount-stripped remainder. -/
structure S3Match where
  dateTok : String
  amountStrs : List String
  rawDesc : String

/-- Body of one Strategy-1 loop iteration: `om` is the oracle's regex-match
result for this line; `none` is the `continue` paths. -/
def strat1Line (nd : String → String) (om : Option S1Match) (l : String) :
    Option ExtractedTransaction :=
  let line := jsTrim l
  if strLen line < 10 then none
  else if isHeaderOrSummaryLine line then none
  else
    match om with
    | none => none
    | some mi =>
      match parseFloatQ (stripDollarComma mi.amountGrp1) with
      | none => none
      | some a0 =>
        let amount := |a0|
        if amount = 0 then none
        else
          let desc0 := cleanDescription mi.rawDesc
          let description := if desc0 = "" then "Unknown transaction" else desc0
          let isDebit := includesStr line "(" && includesStr line ")" && mi.amountHasParen
          some { date := nd mi.dateTok
                 description := description
                 amount := amount
                 isIncome := isIncomeTransaction line description isDebit }

/-- Loop of `parseStrategy1` over the numbered lines. -/
def strat1Go (nd : String → String) (m : Nat → Option S1Match) :
    List String → Nat → List ExtractedTransaction
  | [], _ => []
  | l :: rest, i =>
    match strat1Line nd (m i) l with
    | none => strat1Go nd m rest (i + 1)
    | some t => t :: strat1Go nd m rest (i + 1)

/-- Embedding of `FileProcessorService.parseStrategy1` (standard
`DATE DESCRIPTION AMOUNT` lines): split into lines, skip short and
header/summary lines, and for each line the oracle reports turn the matched
amount into `Math.abs(parseFloat(...))`, skipping `NaN` and `0`. -/
def parseStrategy1 (nd : String → String) (m : Nat → Option S1Match)
    (text : String) : List ExtractedTransaction :=
  strat1Go nd m (jsSplitChar '\n' text) 0

/-- JavaScript `x > 0` where `x` may be `NaN` (`none`). -/
def jsGt0 : Option ℚ → Bool
  | some q => decide (0 < q)
  | none => false

/-- JavaScript `x === 0` where `x` may be `NaN` (`none`). -/
def jsEq0 : Option ℚ → Bool
  | some q => decide (q = 0)
  | none => false

/-- Body of one Strategy-2 loop iteration. -/
def strat2Line (nd : String → String) (om : Option S2Match) (line : String) :
    Option ExtractedTransaction :=
  match om with
  | none => none
  | some mi =>
    let amount1 : Option ℚ := parseFloatQ mi.a1Str
    let amount2 : Option (Option ℚ) := mi.a2Str.map parseFloatQ
    let description := cleanDescription mi.rawDesc
    if description = "" ∨ strLen description < 2 then none
    else
      match amount2 with
      | some a2v =>
        if jsGt0 a2v then
          let finalAmount := if jsGt0 amount1 then amount1.getD 0 else a2v.getD 0
          some { date := nd mi.dateTok
                 description := description
                 amount := finalAmount
                 isIncome := jsGt0 a2v && jsEq0 amount1 }
        else if jsGt0 amount1 then
          some { date := nd mi.dateTok
                 description := description
                 amount := amount1.getD 0
                 isIncome := isIncomeTransaction line description false }
        else none
      | none =>
        if jsGt0 amount1 then
          some { date := nd mi.dateTok
                 description := description
                 amount := amount1.getD 0
                 isIncome := isIncomeTransaction line description false }
        else none

/-- Loop of `parseStrategy2` over the numbered lines. -/
def strat2Go (nd : String → String) (m : Nat → Option S2Match) :
    List String → Nat → List ExtractedTransaction
  | [], _ => []
  | line :: rest, i =>
    match strat2Line nd (m i) line with
    | none => strat2Go nd m rest (i + 1)
    | some t => t :: strat2Go nd m rest (i + 1)

/-- Embedding of `FileProcessorService.parseStrategy2` (separate debit/credit
columns): lines with a non-blank trim are scanned with `multiAmountPattern`;
two amounts present and the second positive means the credit column is used
(income exactly when the first amount is `0`), otherwise a positive first
amount is an expense-style single amount.  The `getD 0` reads are exercised
only under guards that force the value to be a present, positive number. -/
def parseStrategy2 (nd : String → String) (m : Nat → Option S2Match)
    (text : String) : List ExtractedTransaction :=
  strat2Go nd m ((jsSplitChar '\n' text).filter (fun l => jsTrim l ≠ "")) 0

/-- The per-match filter of Strategy 3's amount loop:
`!isNaN(num) && num !== 0 && num < 1000000` over `parseFloat` of the match
with commas removed. -/
def strat3Amounts (strs : List String) : List ℚ :=
  strs.filterMap (fun s =>
    match parseFloatQ (stripCommas s) with
    | some q => if q ≠ 0 ∧ q < 1000000 then some q else none
    | none => none)

/-- Body of one Strategy-3 loop iteration. -/
def strat3Line (nd : String → String) (om : Option S3Match) (line : String) :
    Option ExtractedTransaction :=
  if isHeaderOrSummaryLine line then none
  else
    match om with
    | none => none
    | some mi =>
      let amounts := strat3Amounts mi.amountStrs
      match amounts.getLast? with
      | none => none
      | some lastAmount =>
        let amount := |lastAmount|
        let description := cleanDescription mi.rawDesc
        if description = "" ∨ strLen description < 2 then none
        else
          some { date := nd mi.dateTok
                 description := description
                 amount := amount
                 isIncome := isIncomeTransaction line description false }

/-- Loop of `parseStrategy3` over the numbered lines. -/
def strat3Go (nd : String → String) (m : Nat → Option S3Match) :
    List String → Nat → List ExtractedTransaction
  | [], _ => []
  | line :: rest, i =>
    match strat3Line nd (m i) line with
    | none => strat3Go nd m rest (i + 1)
    | some t => t :: strat3Go nd m rest (i + 1)

/-- Embedding of `FileProcessorService.parseStrategy3` (aggressive fallback):
lines are split on newline/carriage-return runs and kept when their trim is
longer than 5 characters; the last surviving numeric token is the amount. -/
def parseStrategy3 (nd : String → String) (m : Nat → Option S3Match)
    (text : String) : List ExtractedTransaction :=
  strat3Go nd m
    (((jsSplitChar '\n' text).flatMap (fun l => jsSplitChar '\r' l)).filter
      (fun l => strLen (jsTrim l) > 5)) 0

/-- Deduplication loop: a transaction is kept when its key is unseen.  The
source key is the string `` `${date}-${description}-${amount}` ``; on
normalized data (fixed-width dates, dash-free numeric rendering) that string
determines exactly the triple modelled here. -/
def dedupGo (seen : List (String × String × ℚ)) :
    List ExtractedTransaction → List ExtractedTransaction
  | [] => []
  | t :: rest =>
    let key := (t.date, t.description, t.amount)
    if seen.contains key then dedupGo seen rest
    else t :: dedupGo (key :: seen) rest

/-- Embedding of `FileProcessorService.deduplicateTransactions`. -/
def deduplicateTransactions (ts : List ExtractedTransaction) : List ExtractedTransaction :=
  dedupGo [] ts

/-- Embedding of `FileProcessorService.parseTransactionsFromText`: try the
strategies in order, keeping the first non-empty result, then deduplicate. -/
def parseTransactionsFromText (nd : String → String)
    (m1 : Nat → Option S1Match) (m2 : Nat → Option S2Match) (m3 : Nat → Option S3Match)
    (text : String) : List ExtractedTransaction :=
  let transactions := parseStrategy1 nd m1 text
  let transactions := if transactions.length = 0 then parseStrategy2 nd m2 text else transactions
  let transactions := if transactions.length = 0 then parseStrategy3 nd m3 text else transactions
  deduplicateTransactions transactions

/-- A persisted transaction row, with the columns the persistence loop of
`TransactionController.processFile` writes and its duplicate check reads. -/
structure StoredTx where
  userId : String
  fileId : String
  date : String
  description : String
  amount : ℚ
  category : String
  subcategory : Option String
  isIncome : Bool
deriving Repr, DecidableEq

/-- The description truncation applied before the duplicate check and the
insert (500-char column; cut to 497 plus an ellipsis marker). -/
def truncate500 (d : String) : String :=
  if strLen d > 500 then takeChars d 497 ++ "..." else d

/-- The duplicate check: an existing row for the same user with identical
`(transaction_date, description, amount)`. -/
def dupExists (store : List StoredTx) (userId : String) (date description : String)
    (amount : ℚ) : Bool :=
  store.any (fun s =>
    s.userId == userId && s.date == date && s.description == description &&
    s.amount == amount)

/-- Embedding of the persistence loop of `TransactionController.processFile`
(lines 72-115): walk the extracted transactions paired with their
categorizations (the categorizer preserves order and length), skip rows whose
key already exists, insert the others.  The value is
`(final store, savedCount, duplicateCount)`; inserted rows are appended. -/
def processLoop (userId fileId : String) (store : List StoredTx) :
    List (ExtractedTransaction × CategorizedTransaction) →
    List StoredTx × Nat × Nat
  | [] => (store, 0, 0)
  | (t, c) :: rest =>
    let description := truncate500 t.description
    if dupExists store userId t.date description t.amount then
      let r := processLoop userId fileId store rest
      (r.1, r.2.1, r.2.2 + 1)
    else
      let row : StoredTx :=
        { userId := userId, fileId := fileId, date := t.date,
          description := description, amount := t.amount,
          category := c.category, subcategory := c.subcategory,
          isIncome := t.isIncome }
      let r := processLoop userId fileId (store ++ [row]) rest
      (r.1, r.2.1 + 1, r.2.2)

/-- A stored transaction row as the budget aggregator reads it back:
`parseFloat(t.amount)` and the `is_income` flag. -/
structure TxRow where
  amount : ℚ
  is_income : Bool
deriving Repr, DecidableEq

/-- Total income of a period (`filter(t => t.is_income).reduce(...)`). -/
def totalIncome (rows : List TxRow) : ℚ :=
  (rows.filter (fun t => t.is_income)).foldl (fun sum t => sum + t.amount) 0

/-- Total expenses of a period (`filter(t => !t.is_income).reduce(...)`). -/
def totalExpenses (rows : List TxRow) : ℚ :=
  (rows.filter (fun t => !t.is_income)).foldl (fun sum t => sum + t.amount) 0

/-- Embedding of the savings-rate computation of
`BudgetRecommendationService.generateBudget`:
`totalIncome > 0 ? ((totalIncome - totalExpenses) / totalIncome) * 100 : 0`. -/
def savingsRate (rows : List TxRow) : ℚ :=
  if 0 < totalIncome rows then
    ((totalIncome rows - totalExpenses rows) / totalIncome rows) * 100
  else 0

/-- The numeric skeleton of `generateBudget`: throws the no-history error for
an empty period, otherwise produces `(totalIncome, totalExpenses, savingsRate)`
(the AI recommendation/insight strings do not affect these numbers). -/
def generateBudgetTotals (rows : List TxRow) : Except String (ℚ × ℚ × ℚ) :=
  if rows.length = 0 then .error "No transaction history found for this period"
  else .ok (totalIncome rows, totalExpenses rows, savingsRate rows)

/-- C8: for every set of period transactions the aggregator's savings rate is
`(income - expenses) / income * 100` when the total income is positive and
exactly `0` when the total income is `0` (so zero income with zero expenses
gives `0`); the guard means the division is never evaluated with a zero
denominator, and a non-empty period always produces these totals. -/
theorem savingsRate_spec (rows : List TxRow) :
    (0 < totalIncome rows →
      savingsRate rows = ((totalIncome rows - totalExpenses rows) / totalIncome rows) * 100) ∧
    (totalIncome rows = 0 → savingsRate rows = 0) ∧
    (rows.length ≠ 0 →
      generateBudgetTotals rows = .ok (totalIncome rows, totalExpenses rows, savingsRate rows)) := by
  refine ⟨fun h => ?_, fun h => ?_, fun h => ?_⟩
  · simp [savingsRate, h]
  · simp [savingsRate, h]
  · simp [generateBudgetTotals, h]

/-- Witness for C8 at concrete inputs: a period with income 100 and expenses
80 has savings rate 20; a period whose only row is a zero-amount income row
(income 0, expenses 0) has savings rate 0. -/
theorem savingsRate_spec_witness :
    savingsRate [⟨100, true⟩, ⟨80, false⟩] = 20 ∧ savingsRate [⟨0, true⟩] = 0 := by
  constructor
  · have h := (savingsRate_spec [⟨100, true⟩, ⟨80, false⟩]).1
      (by norm_num [totalIncome, List.filter])
    rw [h]
    norm_num [totalIncome, totalExpenses, List.filter]
  · exact (savingsRate_spec [⟨0, true⟩]).2.1 (by norm_num [totalIncome, List.filter])

/-- C9 (amended): when the category store query throws and no fresh cached
copy exists, `getCategories` returns the hardcoded default list — which holds
9 of the 13 vocabulary categories (it omits Personal Care, Education, Travel
and Subscriptions) — and leaves the cache untouched. -/
theorem getCategories_db_failure_default :
    (∀ t now : Int, getCategories ⟨none, t⟩ now (.error ()) = (defaultCategories, ⟨none, t⟩)) ∧
    (∀ (c : List String) (t now : Int), 60000 ≤ now - t →
      getCategories ⟨some c, t⟩ now (.error ()) = (defaultCategories, ⟨some c, t⟩)) ∧
    defaultCategories ⊆ knownVocabulary ∧
    defaultCategories ≠ knownVocabulary := by
  refine ⟨fun t now => rfl, fun c t now h => ?_, by decide, by decide⟩
  simp [getCategories, getCategoriesFetch, not_lt.mpr h]

/-- Witness for C9's amended theorem: an empty cache at epoch 0 and an
expired cache at epoch 60000 both fall back to the default list. -/
theorem getCategories_db_failure_default_witness :
    getCategories ⟨none, 0⟩ 0 (.error ()) = (defaultCategories, ⟨none, 0⟩) ∧
    getCategories ⟨some ["Housing"], 0⟩ 60000 (.error ()) =
      (defaultCategories, ⟨some ["Housing"], 0⟩) :=
  ⟨getCategories_db_failure_default.1 0 0,
   getCategories_db_failure_default.2.1 ["Housing"] 0 60000 (by norm_num)⟩

/-- Counterexample to C9 as stated: with the store unavailable,
`getCategories` returns the hardcoded 9-element list, which is not equivalent
to the fixed 13-category vocabulary — `Personal Care` is in the vocabulary
but missing from the returned list. -/
theorem getCategories_missing_categories_counterexample :
    (getCategories ⟨none, 0⟩ 0 (.error ())).1 = defaultCategories ∧
    "Personal Care" ∈ knownVocabulary ∧
    "Personal Care" ∉ (getCategories ⟨none, 0⟩ 0 (.error ())).1 := by
  exact ⟨rfl, by decide, by decide⟩

/-- C2: a tabular row whose synonym-key lookup finds a date, a description and
an amount string parsing as a decimal yields exactly one transaction with the
absolute value as `amount` and `isIncome` exactly when the parsed number is
positive; a row missing a field, or whose amount fails to parse, yields
nothing (and no error — the function is total). -/
theorem parseCSVRow_spec (nd : String → String) (row : CsvRow) (d ds amtS : String) :
    (findValue row dateKeys = some d → findValue row descKeys = some ds →
     findValue row amountKeys = some amtS →
      (∀ a : ℚ, parseFloatQ (stripDollarComma amtS) = some a →
        parseCSVRow nd row = some ⟨nd d, jsTrim ds, |a|, decide (0 < a)⟩) ∧
      (parseFloatQ (stripDollarComma amtS) = none → parseCSVRow nd row = none)) ∧
    ((findValue row dateKeys = none ∨ findValue row descKeys = none ∨
      findValue row amountKeys = none) → parseCSVRow nd row = none) := by
  constructor
  · intro h1 h2 h3
    constructor
    · intro a ha
      simp [parseCSVRow, h1, h2, h3, ha]
    · intro ha
      simp [parseCSVRow, h1, h2, h3, ha]
  · rintro (h | h | h) <;>
      cases h1 : findValue row dateKeys <;>
      cases h2 : findValue row descKeys <;>
      cases h3 : findValue row amountKeys <;>
      simp_all [parseCSVRow]

/-- Witness for C2: the row `Date=2024-01-15, Description=Starbucks,
Amount=-5.50` parses to one expense transaction of amount 11/2; a row with no
amount column parses to nothing. -/
theorem parseCSVRow_spec_witness :
    parseCSVRow (fun s => s) [("Date", "2024-01-15"), ("Description", "Starbucks"), ("Amount", "-5.50")] =
      some ⟨"2024-01-15", "Starbucks", 11/2, false⟩ ∧
    parseCSVRow (fun s => s) [("Date", "2024-01-15"), ("Description", "Starbucks")] = none := by
  constructor
  · have hp : parseFloatQ (stripDollarComma "-5.50") =
        some ((-1 : ℚ) * (((5 : ℕ) : ℚ) + ((50 : ℕ) : ℚ) / 10 ^ 2)) := rfl
    have h := ((parseCSVRow_spec (fun s => s)
        [("Date", "2024-01-15"), ("Description", "Starbucks"), ("Amount", "-5.50")]
        "2024-01-15" "Starbucks" "-5.50").1 rfl rfl rfl).1 _ hp
    rw [h]
    norm_num
    rfl
  · exact (parseCSVRow_spec (fun s => s)
      [("Date", "2024-01-15"), ("Description", "Starbucks")] "" "" "").2
      (Or.inr (Or.inr rfl))

/-- C4 (amended): for non-income descriptions the fallback categorizer
returns the first matching group of the ordered table `fallbackGroups` at that
group's fixed confidence, all confidences lying in `[0.7, 0.9]`; the actual
order is Housing, Transportation, Food & Dining, Utilities, Entertainment,
Shopping, Healthcare, Personal Care, Education, Travel, Subscriptions — so
Housing and Utilities are checked before the broader Shopping group, but
Healthcare is checked after Shopping; income inputs yield `Income` at 0.8
with no remote call (the function is pure), and no match yields `Other` at
0.5. -/
theorem fallbackCategorization_first_match_order (description : String) :
    fallbackCategorization description true = ⟨description, "Income", none, 4/5⟩ ∧
    fallbackCategorization description false =
      ⟨description, (firstMatchCat (jsToLower description) fallbackGroups).1, none,
       (firstMatchCat (jsToLower description) fallbackGroups).2⟩ ∧
    fallbackGroups.map (fun g => g.2.1) =
      ["Housing", "Transportation", "Food & Dining", "Utilities", "Entertainment",
       "Shopping", "Healthcare", "Personal Care", "Education", "Travel",
       "Subscriptions"] ∧
    (∀ q ∈ fallbackGroups.map (fun g => g.2.2), 7/10 ≤ q ∧ q ≤ 9/10) ∧
    (fallbackGroups.all (fun g => !matchesAny (jsToLower description) g.1) = true →
      fallbackCategorization description false = ⟨description, "Other", none, 1/2⟩) := by
  refine ⟨rfl, ?_, rfl, ?_, ?_⟩
  · cases h1 : matchesAny (jsToLower description) housingKeywords
    · cases h2 : matchesAny (jsToLower description) transportationKeywords
      · cases h3 : matchesAny (jsToLower description) foodKeywords
        · cases h4 : matchesAny (jsToLower description) utilitiesKeywords
          · cases h5 : matchesAny (jsToLower description) entertainmentKeywords
            · cases h6 : matchesAny (jsToLower description) shoppingKeywords
              · cases h7 : matchesAny (jsToLower description) healthcareKeywords
                · cases h8 : matchesAny (jsToLower description) personalCareKeywords
                  · cases h9 : matchesAny (jsToLower description) educationKeywords
                    · cases h10 : matchesAny (jsToLower description) travelKeywords
                      · cases h11 : matchesAny (jsToLower description) subscriptionsKeywords
                        · simp [fallbackCategorization, firstMatchCat, fallbackGroups, h1, h2, h3, h4, h5, h6, h7, h8, h9, h10, h11]
                        · simp [fallbackCategorization, firstMatchCat, fallbackGroups, h1, h2, h3, h4, h5, h6, h7, h8, h9, h10, h11]
                      · simp [fallbackCategorization, firstMatchCat, fallbackGroups, h1, h2, h3, h4, h5, h6, h7, h8, h9, h10]
                    · simp [fallbackCategorization, firstMatchCat, fallbackGroups, h1, h2, h3, h4, h5, h6, h7, h8, h9]
                  · simp [fallbackCategorization, firstMatchCat, fallbackGroups, h1, h2, h3, h4, h5, h6, h7, h8]
                · simp [fallbackCategorization, firstMatchCat, fallbackGroups, h1, h2, h3, h4, h5, h6, h7]
              · simp [fallbackCategorization, firstMatchCat, fallbackGroups, h1, h2, h3, h4, h5, h6]
            · simp [fallbackCategorization, firstMatchCat, fallbackGroups, h1, h2, h3, h4, h5]
          · simp [fallbackCategorization, firstMatchCat, fallbackGroups, h1, h2, h3, h4]
        · simp [fallbackCategorization, firstMatchCat, fallbackGroups, h1, h2, h3]
      · simp [fallbackCategorization, firstMatchCat, fallbackGroups, h1, h2]
    · simp [fallbackCategorization, firstMatchCat, fallbackGroups, h1]
  · intro q hq
    simp only [fallbackGroups, List.map_cons, List.map_nil, List.mem_cons,
      List.not_mem_nil, or_false] at hq
    rcases hq with h | h | h | h | h | h | h | h | h | h | h <;> rw [h] <;> norm_num
  · intro h
    simp only [fallbackGroups, List.all_cons, List.all_nil, Bool.and_eq_true,
      Bool.not_eq_true'] at h
    obtain ⟨h1, h2, h3, h4, h5, h6, h7, h8, h9, h10, h11, -⟩ := h
    simp [fallbackCategorization, h1, h2, h3, h4, h5, h6, h7, h8, h9, h10, h11]

/-- Witness for C4's amended theorem: Housing's confidence 0.9 lies in the
stated range, and the unmatched description `zzz` falls through to `Other`
at confidence 0.5. -/
theorem fallbackCategorization_first_match_order_witness :
    ((7 : ℚ)/10 ≤ 9/10 ∧ (9 : ℚ)/10 ≤ 9/10) ∧
    fallbackCategorization "zzz" false = ⟨"zzz", "Other", none, 1/2⟩ :=
  ⟨(fallbackCategorization_first_match_order "x").2.2.2.1 (9/10)
      (by simp [fallbackGroups]),
   (fallbackCategorization_first_match_order "zzz").2.2.2.2 (by decide)⟩

/-- Counterexample to C4 as stated: `health store` matches a Healthcare
keyword and no group before Shopping in the claimed order (Housing,
Transportation, Food & Dining, Utilities, Entertainment all fail), yet the
code returns `Shopping`, not `Healthcare` — so Healthcare is not checked
before Shopping. -/
theorem fallbackCategorization_healthcare_after_shopping_counterexample :
    matchesAny (jsToLower "health store") healthcareKeywords = true ∧
    matchesAny (jsToLower "health store") housingKeywords = false ∧
    matchesAny (jsToLower "health store") transportationKeywords = false ∧
    matchesAny (jsToLower "health store") foodKeywords = false ∧
    matchesAny (jsToLower "health store") utilitiesKeywords = false ∧
    matchesAny (jsToLower "health store") entertainmentKeywords = false ∧
    (fallbackCategorization "health store" false).category = "Shopping" ∧
    (fallbackCategorization "health store" false).category ≠ "Healthcare" := by
  decide

/-- C5: called as the service calls it (`maxRetries = 3`,
`initialDelay = 1000`), the retry wrapper makes at most 3 attempts; the
delays slept between failed attempts follow the exponential schedule
`1000 * 2 ^ attempt` — so the sleeps performed are always a prefix of
`[1s, 2s]` (the third schedule value, 4s, would follow the final attempt,
after which no sleep happens); an error with status 401 or 403 is rethrown
immediately without further attempts or sleeps; and when all three attempts
fail the last attempt's error is rethrown after sleeping 1s then 2s. -/
theorem withRetry_spec {α : Type} (fn : Nat → Except JsErr α) :
    (withRetry fn 3 1000).2.1 ≤ 3 ∧
    (withRetry fn 3 1000).2.2 <+: [1000 * 2 ^ 0, 1000 * 2 ^ 1] ∧
    (∀ e0 e1 e2, fn 0 = .error e0 → fn 1 = .error e1 → fn 2 = .error e2 →
      isAuthErr e0 = false → isAuthErr e1 = false → isAuthErr e2 = false →
      withRetry fn 3 1000 = (.error (some e2), 3, [1000 * 2 ^ 0, 1000 * 2 ^ 1])) ∧
    (∀ e0, fn 0 = .error e0 → isAuthErr e0 = true →
      withRetry fn 3 1000 = (.error (some e0), 1, [])) ∧
    (∀ e0 e1, fn 0 = .error e0 → isAuthErr e0 = false →
      fn 1 = .error e1 → isAuthErr e1 = true →
      withRetry fn 3 1000 = (.error (some e1), 2, [1000 * 2 ^ 0])) ∧
    (∀ e0 e1 e2, fn 0 = .error e0 → isAuthErr e0 = false →
      fn 1 = .error e1 → isAuthErr e1 = false →
      fn 2 = .error e2 → isAuthErr e2 = true →
      withRetry fn 3 1000 = (.error (some e2), 3, [1000 * 2 ^ 0, 1000 * 2 ^ 1])) := by
  refine ⟨?_, ?_, ?_, ?_, ?_, ?_⟩
  · rcases h0 : fn 0 with e0 | v0
    · cases he0 : isAuthErr e0
      · rcases h1 : fn 1 with e1 | v1
        · cases he1 : isAuthErr e1
          · rcases h2 : fn 2 with e2 | v2
            · cases he2 : isAuthErr e2 <;>
                simp [withRetry, withRetryGo, withRetryGoLast, h0, he0, h1, he1, h2, he2]
            · simp [withRetry, withRetryGo, withRetryGoLast, h0, he0, h1, he1, h2]
          · simp [withRetry, withRetryGo, withRetryGoLast, h0, he0, h1, he1]
        · simp [withRetry, withRetryGo, withRetryGoLast, h0, he0, h1]
      · simp [withRetry, withRetryGo, h0, he0]
    · simp [withRetry, withRetryGo, h0]
  · rcases h0 : fn 0 with e0 | v0
    · cases he0 : isAuthErr e0
      · rcases h1 : fn 1 with e1 | v1
        · cases he1 : isAuthErr e1
          · rcases h2 : fn 2 with e2 | v2
            · cases he2 : isAuthErr e2 <;>
                simp [withRetry, withRetryGo, withRetryGoLast, h0, he0, h1, he1, h2, he2]
            · simp [withRetry, withRetryGo, withRetryGoLast, h0, he0, h1, he1, h2]
          · simp [withRetry, withRetryGo, withRetryGoLast, h0, he0, h1, he1,
              List.prefix_cons_inj]
        · simp [withRetry, withRetryGo, withRetryGoLast, h0, he0, h1,
            List.prefix_cons_inj]
      · simp [withRetry, withRetryGo, h0, he0]
    · simp [withRetry, withRetryGo, h0]
  · intro e0 e1 e2 h0 h1 h2 na0 na1 na2
    simp [withRetry, withRetryGo, withRetryGoLast, h0, h1, h2, na0, na1, na2]
  · intro e0 h0 ha0
    simp [withRetry, withRetryGo, h0, ha0]
  · intro e0 e1 h0 na0 h1 ha1
    simp [withRetry, withRetryGo, withRetryGoLast, h0, na0, h1, ha1]
  · intro e0 e1 e2 h0 na0 h1 na1 h2 ha2
    simp [withRetry, withRetryGo, withRetryGoLast, h0, na0, h1, na1, h2, ha2]

/-- Witness for C5: with every attempt failing with a plain (non-auth) error,
the wrapper returns that error after 3 calls and sleeps of 1s and 2s; with an
immediate 401, it returns after a single call and no sleep. -/
theorem withRetry_spec_witness :
    withRetry (fun _ => (.error (.other "boom") : Except JsErr Unit)) 3 1000 =
      (.error (some (.other "boom")), 3, [1000 * 2 ^ 0, 1000 * 2 ^ 1]) ∧
    withRetry (fun _ => (.error (.status 401) : Except JsErr Unit)) 3 1000 =
      (.error (some (.status 401)), 1, []) :=
  ⟨(withRetry_spec (fun _ => (.error (.other "boom") : Except JsErr Unit))).2.2.1
      (.other "boom") (.other "boom") (.other "boom") rfl rfl rfl rfl rfl rfl,
   (withRetry_spec (fun _ => (.error (.status 401) : Except JsErr Unit))).2.2.2.1
      (.status 401) rfl rfl⟩

/-- C6: document parsing tries Strategy A, then Strategy B only when A
produced zero transactions, then Strategy C only when B also produced zero;
the result is the deduplication of the first non-empty strategy output, never
a merge; and when all three strategies produce zero transactions the parser
returns the empty list.  Quantified over every behaviour of the regex oracles
and the date normaliser. -/
theorem parseTransactionsFromText_cascade (nd : String → String)
    (m1 : Nat → Option S1Match) (m2 : Nat → Option S2Match) (m3 : Nat → Option S3Match)
    (text : String) :
    (parseStrategy1 nd m1 text ≠ [] →
      parseTransactionsFromText nd m1 m2 m3 text =
        deduplicateTransactions (parseStrategy1 nd m1 text)) ∧
    (parseStrategy1 nd m1 text = [] → parseStrategy2 nd m2 text ≠ [] →
      parseTransactionsFromText nd m1 m2 m3 text =
        deduplicateTransactions (parseStrategy2 nd m2 text)) ∧
    (parseStrategy1 nd m1 text = [] → parseStrategy2 nd m2 text = [] →
      parseTransactionsFromText nd m1 m2 m3 text =
        deduplicateTransactions (parseStrategy3 nd m3 text)) ∧
    (parseStrategy1 nd m1 text = [] → parseStrategy2 nd m2 text = [] →
      parseStrategy3 nd m3 text = [] →
      parseTransactionsFromText nd m1 m2 m3 text = []) := by
  refine ⟨fun h1 => ?_, fun h1 h2 => ?_, fun h1 h2 => ?_, fun h1 h2 h3 => ?_⟩
  · simp [parseTransactionsFromText, List.length_eq_zero, h1]
  · simp [parseTransactionsFromText, List.length_eq_zero, h1, h2]
  · simp [parseTransactionsFromText, List.length_eq_zero, h1, h2]
  · simp [parseTransactionsFromText, List.length_eq_zero, h1, h2, h3,
      deduplicateTransactions, dedupGo]

/-- Witness for C6: with oracles that match nothing on the empty document all
three strategies are empty and the parser returns the empty list. -/
theorem parseTransactionsFromText_cascade_witness :
    parseTransactionsFromText (fun s => s) (fun _ => none) (fun _ => none) (fun _ => none)
      "" = [] :=
  (parseTransactionsFromText_cascade (fun s => s) (fun _ => none) (fun _ => none)
    (fun _ => none) "").2.2.2 rfl rfl rfl

/-- When the value is a present, positive number (`jsGt0`), its `getD 0` read
is non-negative. -/
theorem jsGt0_getD_nonneg (x : Option ℚ) (h : jsGt0 x = true) : 0 ≤ x.getD 0 := by
  cases x with
  | none => simp [jsGt0] at h
  | some q =>
    simp only [jsGt0, decide_eq_true_eq] at h
    simpa using le_of_lt h

/-- Every transaction produced by one Strategy-1 line has a non-negative
amount (it is an absolute value). -/
theorem strat1Line_amount_nonneg (nd : String → String) (om : Option S1Match)
    (l : String) (t : ExtractedTransaction) (h : strat1Line nd om l = some t) :
    0 ≤ t.amount := by
  simp only [strat1Line] at h
  repeat' split at h
  all_goals try exact Option.noConfusion h
  all_goals obtain rfl : _ = t := Option.some.inj h
  all_goals exact abs_nonneg _

/-- Every transaction produced by one Strategy-2 line has a non-negative
amount (each push site is guarded by a positivity test). -/
theorem strat2Line_amount_nonneg (nd : String → String) (om : Option S2Match)
    (l : String) (t : ExtractedTransaction) (h : strat2Line nd om l = some t) :
    0 ≤ t.amount := by
  simp only [strat2Line] at h
  repeat' split at h
  all_goals try exact Option.noConfusion h
  all_goals obtain rfl : _ = t := Option.some.inj h
  all_goals exact jsGt0_getD_nonneg _ (by assumption)

/-- Every transaction produced by one Strategy-3 line has a non-negative
amount (it is an absolute value). -/
theorem strat3Line_amount_nonneg (nd : String → String) (om : Option S3Match)
    (l : String) (t : ExtractedTransaction) (h : strat3Line nd om l = some t) :
    0 ≤ t.amount := by
  simp only [strat3Line] at h
  repeat' split at h
  all_goals try exact Option.noConfusion h
  all_goals obtain rfl : _ = t := Option.some.inj h
  all_goals exact abs_nonneg _

/-- Amount non-negativity lifts from the per-line body to the whole
Strategy-1 loop. -/
theorem strat1Go_amount_nonneg (nd : String → String) (m : Nat → Option S1Match) :
    ∀ (lines : List String) (i : Nat) (t : ExtractedTransaction),
      t ∈ strat1Go nd m lines i → 0 ≤ t.amount := by
  intro lines
  induction lines with
  | nil => intro i t ht; simp [strat1Go] at ht
  | cons l rest ih =>
    intro i t ht
    rw [strat1Go] at ht
    rcases hl : strat1Line nd (m i) l with - | t0
    · rw [hl] at ht
      exact ih (i + 1) t ht
    · rw [hl] at ht
      rcases List.mem_cons.mp ht with rfl | hmem
      · exact strat1Line_amount_nonneg nd (m i) l t hl
      · exact ih (i + 1) t hmem

/-- Amount non-negativity lifts to the whole Strategy-2 loop. -/
theorem strat2Go_amount_nonneg (nd : String → String) (m : Nat → Option S2Match) :
    ∀ (lines : List String) (i : Nat) (t : ExtractedTransaction),
      t ∈ strat2Go nd m lines i → 0 ≤ t.amount := by
  intro lines
  induction lines with
  | nil => intro i t ht; simp [strat2Go] at ht
  | cons l rest ih =>
    intro i t ht
    rw [strat2Go] at ht
    rcases hl : strat2Line nd (m i) l with - | t0
    · rw [hl] at ht
      exact ih (i + 1) t ht
    · rw [hl] at ht
      rcases List.mem_cons.mp ht with rfl | hmem
      · exact strat2Line_amount_nonneg nd (m i) l t hl
      · exact ih (i + 1) t hmem

/-- Amount non-negativity lifts to the whole Strategy-3 loop. -/
theorem strat3Go_amount_nonneg (nd : String → String) (m : Nat → Option S3Match) :
    ∀ (lines : List String) (i : Nat) (t : ExtractedTransaction),
      t ∈ strat3Go nd m lines i → 0 ≤ t.amount := by
  intro lines
  induction lines with
  | nil => intro i t ht; simp [strat3Go] at ht
  | cons l rest ih =>
    intro i t ht
    rw [strat3Go] at ht
    rcases hl : strat3Line nd (m i) l with - | t0
    · rw [hl] at ht
      exact ih (i + 1) t ht
    · rw [hl] at ht
      rcases List.mem_cons.mp ht with rfl | hmem
      · exact strat3Line_amount_nonneg nd (m i) l t hl
      · exact ih (i + 1) t hmem

/-- Deduplication only drops elements: every survivor was in the input. -/
theorem dedupGo_subset :
    ∀ (l : List ExtractedTransaction) (seen : List (String × String × ℚ))
      (t : ExtractedTransaction), t ∈ dedupGo seen l → t ∈ l := by
  intro l
  induction l with
  | nil => intro seen t ht; simp [dedupGo] at ht
  | cons x rest ih =>
    intro seen t ht
    rw [dedupGo] at ht
    split at ht
    · exact List.mem_cons_of_mem x (ih _ t ht)
    · rcases List.mem_cons.mp ht with rfl | hmem
      · exact List.mem_cons_self t rest
      · exact List.mem_cons_of_mem x (ih _ t hmem)

/-- C7: every transaction produced by any parsing path — the CSV row parser
and document Strategies A, B and C (and therefore the combined
`parseTransactionsFromText`) — has a non-negative amount; direction lives
only in `isIncome`.  Quantified over every regex-oracle behaviour, every date
normaliser, every row and every document text. -/
theorem extracted_amount_nonneg (nd : String → String)
    (m1 : Nat → Option S1Match) (m2 : Nat → Option S2Match) (m3 : Nat → Option S3Match)
    (text : String) (row : CsvRow) :
    (∀ t ∈ parseStrategy1 nd m1 text, 0 ≤ t.amount) ∧
    (∀ t ∈ parseStrategy2 nd m2 text, 0 ≤ t.amount) ∧
    (∀ t ∈ parseStrategy3 nd m3 text, 0 ≤ t.amount) ∧
    (∀ t ∈ parseTransactionsFromText nd m1 m2 m3 text, 0 ≤ t.amount) ∧
    (∀ t : ExtractedTransaction, parseCSVRow nd row = some t → 0 ≤ t.amount) := by
  refine ⟨fun t ht => strat1Go_amount_nonneg nd m1 _ 0 t ht,
          fun t ht => strat2Go_amount_nonneg nd m2 _ 0 t ht,
          fun t ht => strat3Go_amount_nonneg nd m3 _ 0 t ht,
          fun t ht => ?_, fun t ht => ?_⟩
  · unfold parseTransactionsFromText at ht
    have hmem := dedupGo_subset _ _ t ht
    repeat' split at hmem
    all_goals first
      | exact strat1Go_amount_nonneg nd m1 _ 0 t hmem
      | exact strat2Go_amount_nonneg nd m2 _ 0 t hmem
      | exact strat3Go_amount_nonneg nd m3 _ 0 t hmem
  · simp only [parseCSVRow] at ht
    repeat' split at ht
    all_goals try exact Option.noConfusion ht
    all_goals obtain rfl : _ = t := Option.some.inj ht
    all_goals exact abs_nonneg _

/-- Witness for C7 at a concrete input: a CSV row with amount `-5.50` parses
to a transaction whose amount `11/2` is non-negative. -/
theorem extracted_amount_nonneg_witness :
    parseCSVRow (fun s => s)
      [("Date", "2024-01-15"), ("Description", "Coffee"), ("Amount", "-5.50")] =
      some ⟨"2024-01-15", "Coffee", 11/2, false⟩ ∧
    0 ≤ ((⟨"2024-01-15", "Coffee", 11/2, false⟩ : ExtractedTransaction)).amount := by
  have hrow : parseCSVRow (fun s => s)
      [("Date", "2024-01-15"), ("Description", "Coffee"), ("Amount", "-5.50")] =
      some ⟨"2024-01-15", "Coffee",
        |(-1 : ℚ) * (((5 : ℕ) : ℚ) + ((50 : ℕ) : ℚ) / 10 ^ 2)|,
        decide ((0 : ℚ) < -1 * (((5 : ℕ) : ℚ) + ((50 : ℕ) : ℚ) / 10 ^ 2))⟩ := rfl
  have hrow2 : parseCSVRow (fun s => s)
      [("Date", "2024-01-15"), ("Description", "Coffee"), ("Amount", "-5.50")] =
      some ⟨"2024-01-15", "Coffee", 11/2, false⟩ := by
    rw [hrow]; norm_num
  exact ⟨hrow2, (extracted_amount_nonneg (fun s => s) (fun _ => none) (fun _ => none)
    (fun _ => none) ""
    [("Date", "2024-01-15"), ("Description", "Coffee"), ("Amount", "-5.50")]).2.2.2.2
    _ hrow2⟩

/-- The saved and duplicate counters of the persistence loop always total the
number of processed transactions. -/
theorem processLoop_counts (u f : String) :
    ∀ (txs : List (ExtractedTransaction × CategorizedTransaction)) (store : List StoredTx),
      (processLoop u f store txs).2.1 + (processLoop u f store txs).2.2 = txs.length := by
  intro txs
  induction txs with
  | nil => intro store; simp [processLoop]
  | cons p rest ih =>
    intro store
    rcases p with ⟨t, c⟩
    cases hd : dupExists store u t.date (truncate500 t.description) t.amount
    · have hr := ih (store ++ [(⟨u, f, t.date, truncate500 t.description, t.amount,
        c.category, c.subcategory, t.isIncome⟩ : StoredTx)])
      simp [processLoop, hd]
      omega
    · have hr := ih store
      simp [processLoop, hd]
      omega

/-- The persistence loop only appends to the store. -/
theorem processLoop_store_mono (u f : String) :
    ∀ (txs : List (ExtractedTransaction × CategorizedTransaction)) (store : List StoredTx)
      (s : StoredTx), s ∈ store → s ∈ (processLoop u f store txs).1 := by
  intro txs
  induction txs with
  | nil => intro store s hs; simpa [processLoop] using hs
  | cons p rest ih =>
    intro store s hs
    rcases p with ⟨t, c⟩
    cases hd : dupExists store u t.date (truncate500 t.description) t.amount
    · simp only [processLoop, hd, Bool.false_eq_true, if_false]
      exact ih _ s (List.mem_append_left _ hs)
    · simp [processLoop, hd]
      exact ih store s hs

/-- A duplicate-check hit is preserved by growing the store. -/
theorem dupExists_mono (store store' : List StoredTx) (u d ds : String) (a : ℚ)
    (hsub : ∀ s ∈ store, s ∈ store') (h : dupExists store u d ds a = true) :
    dupExists store' u d ds a = true := by
  simp only [dupExists, List.any_eq_true] at h ⊢
  obtain ⟨s, hs, hp⟩ := h
  exact ⟨s, hsub s hs, hp⟩

/-- After the persistence loop runs, every processed transaction's
`(user, date, truncated description, amount)` key is present in the store —
whether the row was a duplicate already or was inserted by the loop. -/
theorem processLoop_key_present (u f : String) :
    ∀ (txs : List (ExtractedTransaction × CategorizedTransaction)) (store : List StoredTx)
      (p : ExtractedTransaction × CategorizedTransaction), p ∈ txs →
      dupExists (processLoop u f store txs).1 u p.1.date (truncate500 p.1.description)
        p.1.amount = true := by
  intro txs
  induction txs with
  | nil => intro store p hp; simp at hp
  | cons q rest ih =>
    intro store p hp
    rcases q with ⟨t, c⟩
    rcases List.mem_cons.mp hp with rfl | hmem
    · cases hd : dupExists store u t.date (truncate500 t.description) t.amount
      · simp only [processLoop, hd, Bool.false_eq_true, if_false]
        refine dupExists_mono _ _ _ _ _ _ (fun s hs => processLoop_store_mono u f rest _ s hs) ?_
        simp [dupExists]
      · simp [processLoop, hd]
        exact dupExists_mono _ _ _ _ _ _
          (fun s hs => processLoop_store_mono u f rest store s hs) hd
    · cases hd : dupExists store u t.date (truncate500 t.description) t.amount
      · simp only [processLoop, hd, Bool.false_eq_true, if_false]
        exact ih _ p hmem
      · simp [processLoop, hd]
        exact ih store p hmem

/-- A run in which every transaction's key is already stored inserts nothing:
the store is unchanged, `savedCount = 0` and `duplicateCount` is the number
of transactions. -/
theorem processLoop_all_dup (u f : String) :
    ∀ (txs : List (ExtractedTransaction × CategorizedTransaction)) (store : List StoredTx),
      (∀ p ∈ txs, dupExists store u p.1.date (truncate500 p.1.description) p.1.amount = true) →
      processLoop u f store txs = (store, 0, txs.length) := by
  intro txs
  induction txs with
  | nil => intro store _; simp [processLoop]
  | cons q rest ih =>
    intro store hall
    rcases q with ⟨t, c⟩
    have hd := hall (t, c) (List.mem_cons_self _ _)
    simp only [List.length_cons]
    rw [show processLoop u f store ((t, c) :: rest) =
        (let r := processLoop u f store rest; (r.1, r.2.1, r.2.2 + 1)) by
      simp [processLoop, hd]]
    rw [ih store (fun p hp => hall p (List.mem_cons_of_mem _ hp))]

/-- C3 (amended): re-running the persistence loop on the same transaction
list against the store produced by a first run inserts nothing and reports
`savedCount = 0` and `duplicateCount` equal to the total number of extracted
transactions, i.e. the first run's `savedCount + duplicateCount`; this equals
the first run's `savedCount` exactly when the first run skipped no
duplicates. -/
theorem processLoop_reprocess_idempotent (u f : String)
    (txs : List (ExtractedTransaction × CategorizedTransaction)) (store : List StoredTx) :
    processLoop u f (processLoop u f store txs).1 txs =
      ((processLoop u f store txs).1, 0,
       (processLoop u f store txs).2.1 + (processLoop u f store txs).2.2) := by
  rw [processLoop_all_dup u f txs (processLoop u f store txs).1
    (fun p hp => processLoop_key_present u f txs store p hp)]
  rw [processLoop_counts u f txs store]

/-- Counterexample to C3 as stated: when the store already holds a matching
row before the first run, the first run completes with `savedCount = 0`
(`N = 0`), yet the second run reports `duplicateCount = 1 ≠ N`. -/
theorem processLoop_duplicateCount_counterexample :
    (processLoop "u" "f" [⟨"u", "f0", "2024-01-01", "a", 5, "Other", none, false⟩]
      [(⟨"2024-01-01", "a", 5, false⟩, ⟨"a", "Other", none, 1/2⟩)]).2.1 = 0 ∧
    (processLoop "u" "f"
      (processLoop "u" "f" [⟨"u", "f0", "2024-01-01", "a", 5, "Other", none, false⟩]
        [(⟨"2024-01-01", "a", 5, false⟩, ⟨"a", "Other", none, 1/2⟩)]).1
      [(⟨"2024-01-01", "a", 5, false⟩, ⟨"a", "Other", none, 1/2⟩)]).2.2 = 1 ∧
    (1 : Nat) ≠ 0 := by
  have hd : dupExists [(⟨"u", "f0", "2024-01-01", "a", 5, "Other", none, false⟩ : StoredTx)]
      "u" "2024-01-01" (truncate500 "a") 5 = true := by
    have ht : truncate500 "a" = "a" := by norm_num [truncate500, strLen]
    rw [ht]
    simp [dupExists]
  have h1 : processLoop "u" "f" [⟨"u", "f0", "2024-01-01", "a", 5, "Other", none, false⟩]
      [(⟨"2024-01-01", "a", 5, false⟩, ⟨"a", "Other", none, 1/2⟩)] =
      ([⟨"u", "f0", "2024-01-01", "a", 5, "Other", none, false⟩], 0, 1) := by
    apply processLoop_all_dup
    intro p hp
    simp only [List.mem_singleton] at hp
    subst hp
    exact hd
  rw [h1]
  refine ⟨rfl, ?_, one_ne_zero⟩
  have h2 : processLoop "u" "f" [⟨"u", "f0", "2024-01-01", "a", 5, "Other", none, false⟩]
      [(⟨"2024-01-01", "a", 5, false⟩, ⟨"a", "Other", none, 1/2⟩)] =
      ([⟨"u", "f0", "2024-01-01", "a", 5, "Other", none, false⟩], 0, 1) := h1
  rw [h2]

/-- Every fallback result carries the input description unchanged. -/
theorem fallbackCategorization_description (d : String) (b : Bool) :
    (fallbackCategorization d b).description = d := by
  cases b
  · cases h1 : matchesAny (jsToLower d) housingKeywords
    · cases h2 : matchesAny (jsToLower d) transportationKeywords
      · cases h3 : matchesAny (jsToLower d) foodKeywords
        · cases h4 : matchesAny (jsToLower d) utilitiesKeywords
          · cases h5 : matchesAny (jsToLower d) entertainmentKeywords
            · cases h6 : matchesAny (jsToLower d) shoppingKeywords
              · cases h7 : matchesAny (jsToLower d) healthcareKeywords
                · cases h8 : matchesAny (jsToLower d) personalCareKeywords
                  · cases h9 : matchesAny (jsToLower d) educationKeywords
                    · cases h10 : matchesAny (jsToLower d) travelKeywords
                      · cases h11 : matchesAny (jsToLower d) subscriptionsKeywords
                        · simp [fallbackCategorization, h1, h2, h3, h4, h5, h6, h7, h8, h9, h10, h11]
                        · simp [fallbackCategorization, h1, h2, h3, h4, h5, h6, h7, h8, h9, h10, h11]
                      · simp [fallbackCategorization, h1, h2, h3, h4, h5, h6, h7, h8, h9, h10]
                    · simp [fallbackCategorization, h1, h2, h3, h4, h5, h6, h7, h8, h9]
                  · simp [fallbackCategorization, h1, h2, h3, h4, h5, h6, h7, h8]
                · simp [fallbackCategorization, h1, h2, h3, h4, h5, h6, h7]
              · simp [fallbackCategorization, h1, h2, h3, h4, h5, h6]
            · simp [fallbackCategorization, h1, h2, h3, h4, h5]
          · simp [fallbackCategorization, h1, h2, h3, h4]
        · simp [fallbackCategorization, h1, h2, h3]
      · simp [fallbackCategorization, h1, h2]
    · simp [fallbackCategorization, h1]
  · rfl

/-- Every fallback category is in the fixed 13-item vocabulary. -/
theorem fallbackCategorization_category_mem_vocab (d : String) (b : Bool) :
    (fallbackCategorization d b).category ∈ knownVocabulary := by
  cases b
  · cases h1 : matchesAny (jsToLower d) housingKeywords
    · cases h2 : matchesAny (jsToLower d) transportationKeywords
      · cases h3 : matchesAny (jsToLower d) foodKeywords
        · cases h4 : matchesAny (jsToLower d) utilitiesKeywords
          · cases h5 : matchesAny (jsToLower d) entertainmentKeywords
            · cases h6 : matchesAny (jsToLower d) shoppingKeywords
              · cases h7 : matchesAny (jsToLower d) healthcareKeywords
                · cases h8 : matchesAny (jsToLower d) personalCareKeywords
                  · cases h9 : matchesAny (jsToLower d) educationKeywords
                    · cases h10 : matchesAny (jsToLower d) travelKeywords
                      · cases h11 : matchesAny (jsToLower d) subscriptionsKeywords
                        · simp [fallbackCategorization, knownVocabulary, h1, h2, h3, h4, h5, h6, h7, h8, h9, h10, h11]
                        · simp [fallbackCategorization, knownVocabulary, h1, h2, h3, h4, h5, h6, h7, h8, h9, h10, h11]
                      · simp [fallbackCategorization, knownVocabulary, h1, h2, h3, h4, h5, h6, h7, h8, h9, h10]
                    · simp [fallbackCategorization, knownVocabulary, h1, h2, h3, h4, h5, h6, h7, h8, h9]
                  · simp [fallbackCategorization, knownVocabulary, h1, h2, h3, h4, h5, h6, h7, h8]
                · simp [fallbackCategorization, knownVocabulary, h1, h2, h3, h4, h5, h6, h7]
              · simp [fallbackCategorization, knownVocabulary, h1, h2, h3, h4, h5, h6]
            · simp [fallbackCategorization, knownVocabulary, h1, h2, h3, h4, h5]
          · simp [fallbackCategorization, knownVocabulary, h1, h2, h3, h4]
        · simp [fallbackCategorization, knownVocabulary, h1, h2, h3]
      · simp [fallbackCategorization, knownVocabulary, h1, h2]
    · simp [fallbackCategorization, knownVocabulary, h1]
  · simp [fallbackCategorization, knownVocabulary]

/-- C10: when the remote call succeeds and its response parses as JSON, the
returned record is the coercion of the parsed object: a missing or empty
`category` becomes `Other` and a missing, `null` or exactly-`0` `confidence`
becomes `0.5` (so a parsed confidence of `0` is never returned as-is), while
truthy values pass through unchanged; and on every path the output's
description equals the input description. -/
theorem categorizeTransaction_success_coercion
    (configured : Bool) (jsonParse : String → Option JsonClassification)
    (responses : Nat → Except JsErr (Option String))
    (description : String) (amount : ℚ) (isIncome : Bool) :
    (categorizeTransaction configured jsonParse responses description amount
      isIncome).description = description ∧
    (∀ r, (withRetry (attemptFn jsonParse responses) 3 1000).1 = .ok r →
      categorizeTransaction true jsonParse responses description amount isIncome =
        coerceResult description r ∧
      (r.category = none ∨ r.category = some "" →
        (coerceResult description r).category = "Other") ∧
      (r.confidence = none ∨ r.confidence = some 0 →
        (coerceResult description r).confidence = 1/2) ∧
      (∀ s, r.category = some s → s ≠ "" → (coerceResult description r).category = s) ∧
      (∀ c, r.confidence = some c → c ≠ 0 →
        (coerceResult description r).confidence = c)) := by
  constructor
  · cases configured
    · simp [categorizeTransaction, fallbackCategorization_description]
    · rcases hw : (withRetry (attemptFn jsonParse responses) 3 1000).1 with e | r
      · simp [categorizeTransaction, hw, fallbackCategorization_description]
      · simp [categorizeTransaction, hw, coerceResult]
  · intro r hw
    refine ⟨by simp [categorizeTransaction, hw], ?_, ?_, ?_, ?_⟩
    · rintro (hc | hc) <;> simp [coerceResult, hc]
    · rintro (hc | hc) <;> simp [coerceResult, hc]
    · intro s hc hs
      simp [coerceResult, hc, hs]
    · intro c hc hcz
      simp [coerceResult, hc, hcz]

/-- Witness for C10: a parsed response whose `category` is empty and whose
`confidence` is exactly `0` is coerced to `Other` at confidence `1/2`; the
description is the input description. -/
theorem categorizeTransaction_success_coercion_witness :
    categorizeTransaction true
      (fun s => if s = "\x7b\"category\":\"\",\"confidence\":0\x7d" then
        some ⟨some "", none, some 0⟩ else none)
      (fun _ => .ok (some "\x7b\"category\":\"\",\"confidence\":0\x7d"))
      "Coffee" 5 false =
      coerceResult "Coffee" ⟨some "", none, some 0⟩ ∧
    (coerceResult "Coffee" ⟨some "", none, some 0⟩).category = "Other" ∧
    (coerceResult "Coffee" ⟨some "", none, some 0⟩).confidence = 1/2 ∧
    (categorizeTransaction true
      (fun s => if s = "\x7b\"category\":\"\",\"confidence\":0\x7d" then
        some ⟨some "", none, some 0⟩ else none)
      (fun _ => .ok (some "\x7b\"category\":\"\",\"confidence\":0\x7d"))
      "Coffee" 5 false).description = "Coffee" := by
  have h := (categorizeTransaction_success_coercion true
    (fun s => if s = "\x7b\"category\":\"\",\"confidence\":0\x7d" then
      some ⟨some "", none, some 0⟩ else none)
    (fun _ => .ok (some "\x7b\"category\":\"\",\"confidence\":0\x7d"))
    "Coffee" 5 false).2 ⟨some "", none, some 0⟩ rfl
  exact ⟨h.1, h.2.1 (Or.inr rfl), h.2.2.1 (Or.inr rfl),
    (categorizeTransaction_success_coercion true
      (fun s => if s = "\x7b\"category\":\"\",\"confidence\":0\x7d" then
        some ⟨some "", none, some 0⟩ else none)
      (fun _ => .ok (some "\x7b\"category\":\"\",\"confidence\":0\x7d"))
      "Coffee" 5 false).1⟩

/-- C1 (amended): `categorizeTransaction` is total (never raises), and on
every behaviour in which the remote classification does not produce a parsed
JSON object — unconfigured client, thrown call (timeout), empty or
non-parsing (including code-fenced) content, 401/403, exhaustion of all
retries — it returns the deterministic fallback, whose category is always in
the known 13-item vocabulary; when the response does parse as JSON (after
code-fence stripping) the result is the coerced remote classification, whose
category is the remote's string (`Other` if falsy) and is not validated
against the vocabulary. -/
theorem categorizeTransaction_total_fallback_in_vocab
    (configured : Bool) (jsonParse : String → Option JsonClassification)
    (responses : Nat → Except JsErr (Option String))
    (description : String) (amount : ℚ) (isIncome : Bool) :
    (fallbackCategorization description isIncome).category ∈ knownVocabulary ∧
    (configured = false →
      categorizeTransaction configured jsonParse responses description amount isIncome =
        fallbackCategorization description isIncome) ∧
    (∀ e, (withRetry (attemptFn jsonParse responses) 3 1000).1 = .error e →
      categorizeTransaction true jsonParse responses description amount isIncome =
        fallbackCategorization description isIncome) ∧
    (∀ p, (withRetry (attemptFn jsonParse responses) 3 1000).1 = .ok p →
      categorizeTransaction true jsonParse responses description amount isIncome =
        coerceResult description p) := by
  refine ⟨fallbackCategorization_category_mem_vocab description isIncome,
    fun hc => ?_, fun e hw => ?_, fun p hw => ?_⟩
  · subst hc
    simp [categorizeTransaction]
  · simp [categorizeTransaction, hw]
  · simp [categorizeTransaction, hw]

/-- Witness for C1's amended theorem: with the client unconfigured, and with a
configured client whose every attempt throws a plain error, the result is the
fallback categorization (category `Housing` ∈ vocabulary for `Rent payment`). -/
theorem categorizeTransaction_total_fallback_in_vocab_witness :
    categorizeTransaction false (fun _ => none) (fun _ => .error (.other "timeout"))
      "Rent payment" 100 false = fallbackCategorization "Rent payment" false ∧
    categorizeTransaction true (fun _ => none) (fun _ => .error (.other "timeout"))
      "Rent payment" 100 false = fallbackCategorization "Rent payment" false ∧
    (fallbackCategorization "Rent payment" false).category ∈ knownVocabulary :=
  ⟨(categorizeTransaction_total_fallback_in_vocab false (fun _ => none)
      (fun _ => .error (.other "timeout")) "Rent payment" 100 false).2.1 rfl,
   (categorizeTransaction_total_fallback_in_vocab true (fun _ => none)
      (fun _ => .error (.other "timeout")) "Rent payment" 100 false).2.2.1
      (some (.other "timeout")) rfl,
   (categorizeTransaction_total_fallback_in_vocab false (fun _ => none)
      (fun _ => .error (.other "timeout")) "Rent payment" 100 false).1⟩

/-- Counterexample to C1 as stated: a code-fenced JSON response whose
`category` field is `Pets` — a string outside the known vocabulary — is
returned verbatim, so the output's category is neither in the vocabulary nor
`Other`. -/
theorem categorizeTransaction_unvalidated_category_counterexample :
    (categorizeTransaction true
      (fun s => if s = "\x7b\"category\":\"Pets\",\"confidence\":0.9\x7d" then
        some ⟨some "Pets", none, some (9/10)⟩ else none)
      (fun _ => .ok (some
        "\x60\x60\x60json\n\x7b\"category\":\"Pets\",\"confidence\":0.9\x7d\n\x60\x60\x60"))
      "Pet food" 10 false).category = "Pets" ∧
    "Pets" ∉ knownVocabulary := by
  exact ⟨rfl, by decide⟩

end BudgetApp
